import Mathlib

/-!
Shallow embedding of `src/utils/cart-injector.js` (the ES-module version:
`strategyNuvemshopCartApi`, `strategyDomManipulation`, `strategyRedirect`,
`addToCartBulk`), the cart-injection fallback chain of the AppGrid widget.

Modelling choices:
* A JS `variantId` is `string | number`; we embed it as `VKey`.  A *missing*
  variantId (`undefined`/`null` in JS, both rejected by the entry filter and
  both falsy in the per-strategy guards) is `Option.none`.
* `quantity` is a JS number; the spec's LineItem invariant declares it an
  integer, so it is embedded as `Int`.
* The browser environment (presence of `window`, of `window.NuvemshopCart.add`,
  of the `#cart-toast` element, of `window.dispatchEvent`, the behaviour of
  each host `add` call and of each item's DOM interaction) is an explicit
  `Env` record of oracles.  Page side effects (host calls made, simulated
  clicks, navigation, toasts, dispatched events) are threaded through a
  `PageState`.
* JS exceptions are embedded as `Except JsErr`; a `try`/`catch` in the source
  becomes a `match` on the `Except` value.  Since a caught error does not roll
  back already-performed side effects, every fallible computation returns its
  `PageState` alongside the `Except` value.
* `await delay(ms)` only suspends; it has no observable effect in this model
  and is omitted.  `console.warn`/`console.info` diagnostics are omitted.
-/

namespace CartInjector

/-- A JS `string | number` variant identifier. -/
inductive VKey where
  | str (s : String)
  | num (n : Int)
deriving DecidableEq, Repr

/-- JS truthiness of a `string | number` value: the empty string and the
number 0 are falsy, everything else is truthy. -/
def truthyV : VKey → Bool
  | .str s => s != ""
  | .num n => n != 0

/-- JS `String(v)` on a `string | number` value (template-literal coercion
uses the same conversion).  Integral numbers print in decimal. -/
def jsStringV : VKey → String
  | .str s => s
  | .num n => toString n

/-- One line item handed to `addToCartBulk`.  `variantId = none` embeds a JS
`undefined`/`null` variantId. -/
structure Item where
  variantId : Option VKey
  quantity : Int
deriving DecidableEq, Repr

/-- The entry filter of `addToCartBulk` (source lines 348-350):
`i && i.variantId !== undefined && i.variantId !== null && i.quantity > 0`.
Note it keeps a *falsy but present* variantId such as `0` or `""`. -/
def isValid (i : Item) : Bool :=
  i.variantId.isSome && decide (0 < i.quantity)

/-- The per-item guard of every strategy
(`if (!item.variantId || item.quantity <= 0) continue;` and Strategy C's
`filter((i) => i.variantId && i.quantity > 0)`): the item is processed iff
its variantId is truthy and its quantity positive. -/
def truthyItem (i : Item) : Bool :=
  (match i.variantId with
   | some k => truthyV k
   | none => false) && decide (0 < i.quantity)

/-- Argument of one `window.NuvemshopCart.add` call (source lines 257-260):
`{ variant_id: String(item.variantId), quantity: item.quantity }`. -/
structure CartItem where
  variant_id : VKey
  quantity : Int
deriving DecidableEq, Repr

/-- A dispatched `CustomEvent` (source lines 374-379). -/
structure CartEvent where
  name : String
  items : List Item
  totalQty : Int
deriving DecidableEq, Repr

/-- Observable page side effects accumulated during one run. -/
structure PageState where
  /-- Arguments of the `window.NuvemshopCart.add` calls made, in order. -/
  hostCalls : List CartItem
  /-- Items whose add-to-cart button was clicked by Strategy B, in order. -/
  domClicks : List Item
  /-- Target of `window.location.href = ...`, if navigation was triggered. -/
  navigatedTo : Option String
  /-- Messages shown through the `#cart-toast` element, in order. -/
  toasts : List String
  /-- Custom events dispatched on `window`, in order. -/
  events : List CartEvent
deriving DecidableEq, Repr

/-- The page state before any run: no side effect yet. -/
def PageState.init : PageState :=
  { hostCalls := [], domClicks := [], navigatedTo := none,
    toasts := [], events := [] }

/-- A thrown JS error (only its message is modelled). -/
abbrev JsErr := String

/-- Outcome of one iteration of `strategyDomManipulation`'s try block
(variant-select lookup/mutation, quantity-input lookup/mutation, add-button
lookup) for one item: either some DOM operation threw (caught by the per-item
catch; the click counter is incremented last, so a throwing iteration never
counts a click), or the iteration completed with the add button found and
clicked (`addBtn.click(); added++`, source lines 312-314), or it completed
without finding an add button. -/
inductive DomOutcome where
  | throws (e : JsErr)
  | clicked
  | noClick
deriving DecidableEq, Repr

/-- The execution environment: capability presence flags and behaviour
oracles for the host API and the DOM. -/
structure Env where
  /-- `typeof window !== 'undefined'`. -/
  windowPresent : Bool
  /-- `window.NuvemshopCart` exists and its `add` member is a function. -/
  hostApiPresent : Bool
  /-- Result of the n-th `window.NuvemshopCart.add` call made on this page
  (indexed by the number of calls already made): resolves or rejects. -/
  hostAdd : Nat → Except JsErr Unit
  /-- Outcome of Strategy B's DOM interaction for the item at loop index n. -/
  dom : Nat → DomOutcome
  /-- `document.getElementById('cart-toast')` finds an element. -/
  toastElem : Bool
  /-- `typeof window.dispatchEvent === 'function'`. -/
  dispatchEventPresent : Bool

/-- `showToast(message)` (source lines 231-239): records the message iff the
`#cart-toast` element exists; the 3000 ms hide timer is unobservable here. -/
def showToast (env : Env) (message : String) (s : PageState) : PageState :=
  if env.toastElem then { s with toasts := s.toasts ++ [message] } else s

/-- `validItems.reduce((sum, i) => sum + i.quantity, 0)` (source line 369). -/
def sumQty (items : List Item) : Int :=
  items.foldl (fun acc i => acc + i.quantity) 0

/-- The success message template (source line 370). -/
def toastMsg (totalQty : Int) : String :=
  toString totalQty ++ " produto(s) adicionado(s) ao carrinho!"

/-- The success tail of `addToCartBulk` (source lines 368-381): compute
`totalQty`, show the toast, and dispatch `grade-atacado:cart-updated` with
`{ items: validItems, totalQty }` when `window.dispatchEvent` is available. -/
def completion (env : Env) (validItems : List Item) (s : PageState) : PageState :=
  let totalQty := sumQty validItems
  let s1 := showToast env (toastMsg totalQty) s
  if env.windowPresent && env.dispatchEventPresent then
    { s1 with events := s1.events ++
        [{ name := "grade-atacado:cart-updated",
           items := validItems, totalQty := totalQty }] }
  else s1

/-- The argument Strategy A builds for one item (source lines 257-260).
The `none` branch embeds JS `String(undefined) = "undefined"`; it is
unreachable under the loop guard. -/
def hostArg : Item → CartItem
  | ⟨some k, q⟩ => ⟨.str (jsStringV k), q⟩
  | ⟨none, q⟩ => ⟨.str "undefined", q⟩

/-- The loop inside `strategyNuvemshopCartApi`'s try block (source lines
255-262): skip items failing the truthiness guard, otherwise call
`window.NuvemshopCart.add`; a rejection escapes the loop (to the catch).
The call argument is recorded even when the call throws — the call was made. -/
def apiLoop (env : Env) : List Item → PageState → Except JsErr Unit × PageState
  | [], s => (.ok (), s)
  | item :: rest, s =>
    if truthyItem item then
      let s1 := { s with hostCalls := s.hostCalls ++ [hostArg item] }
      match env.hostAdd s.hostCalls.length with
      | .error e => (.error e, s1)
      | .ok _ => apiLoop env rest s1
    else apiLoop env rest s

/-- Strategy 1 (source lines 246-268): absent capability reports failure
without any call; otherwise run the loop, catching any rejection as failure;
exhausting the loop reports success. -/
def strategyNuvemshopCartApi (env : Env) (items : List Item) (s : PageState) :
    Except JsErr Bool × PageState :=
  if env.windowPresent && env.hostApiPresent then
    match apiLoop env items s with
    | (.ok _, s1) => (.ok true, s1)
    | (.error _, s1) => (.ok false, s1)
  else (.ok false, s)

/-- The loop of `strategyDomManipulation` (source lines 277-320): per item,
skip on the truthiness guard, otherwise run the try block; a throw is caught
per item and the loop continues; a click increments the counter and records
the item. -/
def domLoop (env : Env) :
    List Item → Nat → Nat → PageState → Nat × PageState
  | [], _, added, s => (added, s)
  | item :: rest, i, added, s =>
    if truthyItem item then
      match env.dom i with
      | .throws _ => domLoop env rest (i + 1) added s
      | .clicked =>
          domLoop env rest (i + 1) (added + 1)
            { s with domClicks := s.domClicks ++ [item] }
      | .noClick => domLoop env rest (i + 1) added s
    else domLoop env rest (i + 1) added s

/-- Strategy 2 (source lines 275-322): run the per-item loop and report
success iff at least one click was dispatched (`return added > 0`). -/
def strategyDomManipulation (env : Env) (items : List Item) (s : PageState) :
    Except JsErr Bool × PageState :=
  let r := domLoop env items 0 0 s
  (.ok (decide (0 < r.1)), r.2)

/-- One `items[]=<variantId>:<quantity>` pair (source line 333); the
template literal coerces with JS `String(...)`.  The `none` branch embeds
`String(undefined)`; it is unreachable under Strategy C's filter. -/
def itemParam (i : Item) : String :=
  "items[]=" ++
    (match i.variantId with
     | some k => jsStringV k
     | none => "undefined") ++ ":" ++ toString i.quantity

/-- JS `Array.prototype.join('&')`. -/
def joinAmp : List String → String
  | [] => ""
  | [a] => a
  | a :: b :: rest => a ++ "&" ++ joinAmp (b :: rest)

/-- Strategy 3 (source lines 329-338): without `window` report failure;
build the query from the truthy-filtered items; an empty query (falsy
string) reports failure; otherwise set `window.location.href` and report
success. -/
def strategyRedirect (env : Env) (items : List Item) (s : PageState) :
    Except JsErr Bool × PageState :=
  if env.windowPresent then
    let params := joinAmp ((items.filter truthyItem).map itemParam)
    if params = "" then (.ok false, s)
    else (.ok true, { s with navigatedTo := some ("/cart/add?" ++ params) })
  else (.ok false, s)

/-- `if (success) { ... }` tail of `addToCartBulk` (source lines 368-381). -/
def finish (env : Env) (validItems : List Item) (succ : Bool) (s : PageState) :
    Except JsErr Unit × PageState :=
  if succ then (.ok (), completion env validItems s) else (.ok (), s)

/-- `addToCartBulk` from the point where Strategy C runs (source lines
364-366 then 368-381). -/
def stageC (env : Env) (v : List Item) (s : PageState) :
    Except JsErr Unit × PageState :=
  match strategyRedirect env v s with
  | (.error e, s1) => (.error e, s1)
  | (.ok succ, s1) => finish env v succ s1

/-- `addToCartBulk` from the point where Strategy B runs (source lines
359-361 onward). -/
def stageB (env : Env) (v : List Item) (s : PageState) :
    Except JsErr Unit × PageState :=
  match strategyDomManipulation env v s with
  | (.error e, s1) => (.error e, s1)
  | (.ok true, s1) => finish env v true s1
  | (.ok false, s1) => stageC env v s1

/-- `addToCartBulk` (source lines 347-382): filter to `validItems`, return
silently when none survive, then run the strategy chain and the success
tail.  An uncaught rejection inside a strategy would propagate to the
caller as `.error`. -/
def addToCartBulk (env : Env) (items : List Item) (s : PageState) :
    Except JsErr Unit × PageState :=
  let v := items.filter isValid
  if v.isEmpty then (.ok (), s)
  else
    match strategyNuvemshopCartApi env v s with
    | (.error e, s1) => (.error e, s1)
    | (.ok true, s1) => finish env v true s1
    | (.ok false, s1) => stageB env v s1

/-- Whether a `DomOutcome` is a dispatched click (used to characterize
Strategy B's click counter in the theorems below). -/
def isClickOutcome : DomOutcome → Bool
  | .clicked => true
  | _ => false

/-- Derived characterization of Strategy B's loop: the items whose iteration
dispatches a click, when the loop starts at index `i`. -/
def clickedItems (env : Env) : List Item → Nat → List Item
  | [], _ => []
  | item :: rest, i =>
    if truthyItem item && isClickOutcome (env.dom i) then
      item :: clickedItems env rest (i + 1)
    else clickedItems env rest (i + 1)

/-- Sample environment: window present, host API absent, no DOM control
found, toast element and dispatchEvent available. -/
def envNoApi : Env :=
  { windowPresent := true, hostApiPresent := false,
    hostAdd := fun _ => .ok (), dom := fun _ => .noClick,
    toastElem := true, dispatchEventPresent := true }

/-- Sample environment: host API present, every add call resolves, no DOM
control found, toast element and dispatchEvent available. -/
def envApiOk : Env :=
  { envNoApi with hostApiPresent := true }

/-- Sample environment: host API present, the second add call rejects. -/
def envApiErr : Env :=
  { envApiOk with hostAdd := fun j => if j = 1 then .error "boom" else .ok () }

/-- Sample batch: both items pass the entry filter, but the first one has a
falsy variantId (the number 0). -/
def batchMixed : List Item :=
  [⟨some (.num 0), 2⟩, ⟨some (.num 1), 1⟩]

/-! ## General lemmas about the embedding -/

theorem truthyItem_isValid {i : Item} (h : truthyItem i = true) :
    isValid i = true := by
  rcases i with ⟨vk, q⟩
  cases vk with
  | none => simp [truthyItem] at h
  | some k =>
      simp only [truthyItem, Bool.and_eq_true] at h
      simp [isValid, h.2]

theorem itemParam_ne_empty (i : Item) : itemParam i ≠ "" := by
  intro h
  have hl := congrArg String.length h
  simp only [itemParam, String.length_append] at hl
  have h8 : "items[]=".length = 8 := rfl
  have h1 : ":".length = 1 := rfl
  have h0 : "".length = 0 := rfl
  omega

theorem joinAmp_ne_empty (l : List String) (hne : l ≠ [])
    (h : ∀ x ∈ l, x ≠ "") : joinAmp l ≠ "" := by
  match l with
  | [] => exact absurd rfl hne
  | [a] => simpa [joinAmp] using h a (List.mem_singleton.mpr rfl)
  | a :: b :: t =>
      intro hc
      have hl := congrArg String.length hc
      simp only [joinAmp, String.length_append] at hl
      have ha : a ≠ "" := h a (List.mem_cons_self a (b :: t))
      have : a.length ≠ 0 := by
        intro h0
        apply ha
        have := congrArg String.data (rfl : a = a)
        rcases a with ⟨d⟩
        cases d with
        | nil => rfl
        | cons c cs => simp [String.length] at h0
      have h0 : "".length = 0 := rfl
      have hamp : "&".length = 1 := rfl
      omega

theorem apiLoop_all_ok (env : Env) (v : List Item) (s : PageState)
    (hok : ∀ j, env.hostAdd j = .ok ()) :
    apiLoop env v s =
      (.ok (), { s with hostCalls :=
        s.hostCalls ++ (v.filter truthyItem).map hostArg }) := by
  induction v generalizing s with
  | nil => simp [apiLoop]
  | cons a t ih =>
      by_cases ha : truthyItem a = true
      · simp only [apiLoop, ha, if_true, hok, ih, List.filter_cons]
        simp [List.append_assoc]
      · simp only [apiLoop, ha]
        simp only [Bool.false_eq_true, if_false, ih, List.filter_cons]
        simp [ha]

theorem domLoop_eq (env : Env) (v : List Item) (i added : Nat) (s : PageState) :
    domLoop env v i added s =
      (added + (clickedItems env v i).length,
       { s with domClicks := s.domClicks ++ clickedItems env v i }) := by
  induction v generalizing i added s with
  | nil => simp [domLoop, clickedItems]
  | cons a t ih =>
      by_cases ha : truthyItem a = true
      · cases hd : env.dom i with
        | throws e =>
            simp [domLoop, clickedItems, ha, hd, isClickOutcome, ih]
        | clicked =>
            simp only [domLoop, clickedItems, ha, hd, isClickOutcome,
              if_true, Bool.and_self, ih, Prod.mk.injEq, PageState.mk.injEq,
              List.length_cons, List.append_assoc, List.singleton_append,
              List.cons_append, and_true, true_and]
            exact ⟨by omega, by simp⟩
        | noClick =>
            simp [domLoop, clickedItems, ha, hd, isClickOutcome, ih]
      · simp [domLoop, clickedItems, ha, ih]

theorem strategyDomManipulation_eq (env : Env) (v : List Item) (s : PageState) :
    strategyDomManipulation env v s =
      (.ok (decide (0 < (clickedItems env v 0).length)),
       { s with domClicks := s.domClicks ++ clickedItems env v 0 }) := by
  simp [strategyDomManipulation, domLoop_eq]

theorem clickedItems_congr (env1 env2 : Env) (v : List Item) (i : Nat)
    (h : ∀ j, isClickOutcome (env1.dom j) = isClickOutcome (env2.dom j)) :
    clickedItems env1 v i = clickedItems env2 v i := by
  induction v generalizing i with
  | nil => rfl
  | cons a t ih => simp [clickedItems, h i, ih]

theorem strategyNuvemshopCartApi_ok (env : Env) (v : List Item) (s : PageState) :
    ∃ b s1, strategyNuvemshopCartApi env v s = (.ok b, s1) := by
  unfold strategyNuvemshopCartApi
  split
  · split
    · exact ⟨_, _, rfl⟩
    · exact ⟨_, _, rfl⟩
  · exact ⟨_, _, rfl⟩

theorem finish_ok (env : Env) (v : List Item) (succ : Bool) (s : PageState) :
    ∃ s1, finish env v succ s = (.ok (), s1) := by
  cases succ <;> exact ⟨_, rfl⟩

theorem strategyRedirect_ok (env : Env) (v : List Item) (s : PageState) :
    ∃ b s1, strategyRedirect env v s = (.ok b, s1) := by
  unfold strategyRedirect
  split
  · by_cases hp : joinAmp (List.map itemParam (List.filter truthyItem v)) = ""
    · exact ⟨false, s, by simp [hp]⟩
    · exact ⟨true,
        { s with navigatedTo := some ("/cart/add?" ++
            joinAmp ((v.filter truthyItem).map itemParam)) },
        by simp [hp]⟩
  · exact ⟨_, _, rfl⟩

theorem stageC_ok (env : Env) (v : List Item) (s : PageState) :
    ∃ s1, stageC env v s = (.ok (), s1) := by
  obtain ⟨b, s1, hr⟩ := strategyRedirect_ok env v s
  unfold stageC
  rw [hr]
  exact finish_ok env v b s1

theorem stageB_ok (env : Env) (v : List Item) (s : PageState) :
    ∃ s1, stageB env v s = (.ok (), s1) := by
  unfold stageB
  rw [strategyDomManipulation_eq]
  cases hb : decide (0 < (clickedItems env v 0).length)
  · exact stageC_ok env v _
  · exact finish_ok env v true _

theorem apiLoop_error (env : Env) (v : List Item) (s : PageState) (k : Nat)
    (e : JsErr)
    (hall : ∀ i ∈ v, truthyItem i = true)
    (hk : k < v.length)
    (hok : ∀ j, j < k → env.hostAdd (s.hostCalls.length + j) = .ok ())
    (herr : env.hostAdd (s.hostCalls.length + k) = .error e) :
    apiLoop env v s =
      (.error e,
       { s with hostCalls := s.hostCalls ++ (v.take (k + 1)).map hostArg }) := by
  induction v generalizing k s with
  | nil => simp at hk
  | cons a t ih =>
      have ha : truthyItem a = true := hall a (List.mem_cons_self a t)
      simp only [apiLoop, ha, if_true]
      cases k with
      | zero =>
          rw [Nat.add_zero] at herr
          rw [herr]
          simp [List.take_succ_cons]
      | succ k2 =>
          have h0 : env.hostAdd s.hostCalls.length = .ok () := by
            have h1 := hok 0 (Nat.succ_pos k2)
            rwa [Nat.add_zero] at h1
          rw [h0]
          have ih2 := ih { s with hostCalls := s.hostCalls ++ [hostArg a] } k2
            (fun i hi => hall i (List.mem_cons_of_mem a hi))
            (Nat.lt_of_succ_lt_succ hk)
            (fun j hj => by
              show env.hostAdd ((s.hostCalls ++ [hostArg a]).length + j) = .ok ()
              have h2 := hok (j + 1) (Nat.succ_lt_succ hj)
              have h3 : (s.hostCalls ++ [hostArg a]).length + j
                  = s.hostCalls.length + (j + 1) := by
                simp only [List.length_append, List.length_cons,
                  List.length_nil]
                omega
              rw [h3]
              exact h2)
            (by
              show env.hostAdd ((s.hostCalls ++ [hostArg a]).length + k2)
                = .error e
              have h3 : (s.hostCalls ++ [hostArg a]).length + k2
                  = s.hostCalls.length + (k2 + 1) := by
                simp only [List.length_append, List.length_cons,
                  List.length_nil]
                omega
              rw [h3]
              exact herr)
          rw [ih2]
          simp [List.take_succ_cons, List.append_assoc]

theorem apiLoop_frame (env : Env) (v : List Item) (s : PageState) :
    ∃ cs, (apiLoop env v s).2 = { s with hostCalls := s.hostCalls ++ cs } := by
  induction v generalizing s with
  | nil => exact ⟨[], by simp [apiLoop]⟩
  | cons a t ih =>
      by_cases ha : truthyItem a = true
      · simp only [apiLoop, ha, if_true]
        cases hcall : env.hostAdd s.hostCalls.length with
        | error e => exact ⟨[hostArg a], rfl⟩
        | ok u =>
            obtain ⟨cs, hcs⟩ := ih { s with hostCalls := s.hostCalls ++ [hostArg a] }
            exact ⟨hostArg a :: cs, by simp [hcs, List.append_assoc]⟩
      · simpa [apiLoop, ha] using ih s

theorem strategyNuvemshopCartApi_frame (env : Env) (v : List Item)
    (s : PageState) :
    ∃ b cs, strategyNuvemshopCartApi env v s =
      (.ok b, { s with hostCalls := s.hostCalls ++ cs }) := by
  unfold strategyNuvemshopCartApi
  split
  · obtain ⟨cs, hcs⟩ := apiLoop_frame env v s
    rcases hr : apiLoop env v s with ⟨r, s1⟩
    rw [hr] at hcs
    cases r with
    | ok u => exact ⟨true, cs, by simp only [] at hcs; simp [hcs]⟩
    | error e => exact ⟨false, cs, by simp only [] at hcs; simp [hcs]⟩
  · exact ⟨false, [], by simp⟩

theorem strategyRedirect_frame (env : Env) (v : List Item) (s : PageState) :
    ∃ b nv, strategyRedirect env v s = (.ok b, { s with navigatedTo := nv }) := by
  unfold strategyRedirect
  split
  · by_cases hp : joinAmp ((v.filter truthyItem).map itemParam) = ""
    · exact ⟨false, s.navigatedTo, by simp [hp]⟩
    · exact ⟨true,
        some ("/cart/add?" ++ joinAmp ((v.filter truthyItem).map itemParam)),
        by simp [hp]⟩
  · exact ⟨false, s.navigatedTo, by simp⟩

theorem finish_events (env : Env) (v : List Item) (succ : Bool) (s : PageState) :
    ∃ tail, (finish env v succ s).2.events = s.events ++ tail ∧
      ∀ ev ∈ tail, ev.items = v ∧ ev.totalQty = sumQty v := by
  cases succ with
  | false => exact ⟨[], by simp [finish]⟩
  | true =>
      refine ⟨if env.windowPresent && env.dispatchEventPresent then
          [{ name := "grade-atacado:cart-updated",
             items := v, totalQty := sumQty v }] else [], ?_, ?_⟩
      · unfold finish completion showToast
        by_cases hWD : (env.windowPresent && env.dispatchEventPresent) = true <;>
          by_cases hT : env.toastElem = true <;>
            simp [hWD, hT]
      · intro ev hev
        by_cases hWD : (env.windowPresent && env.dispatchEventPresent) = true
        · rw [if_pos hWD] at hev
          simp only [List.mem_singleton] at hev
          subst hev
          exact ⟨rfl, rfl⟩
        · rw [if_neg hWD] at hev
          simp at hev

theorem stageC_events (env : Env) (v : List Item) (s : PageState) :
    ∃ tail, (stageC env v s).2.events = s.events ++ tail ∧
      ∀ ev ∈ tail, ev.items = v ∧ ev.totalQty = sumQty v := by
  unfold stageC
  obtain ⟨b, nv, hr⟩ := strategyRedirect_frame env v s
  rw [hr]
  obtain ⟨tail, ht, hprop⟩ := finish_events env v b { s with navigatedTo := nv }
  exact ⟨tail, ht, hprop⟩

theorem stageB_events (env : Env) (v : List Item) (s : PageState) :
    ∃ tail, (stageB env v s).2.events = s.events ++ tail ∧
      ∀ ev ∈ tail, ev.items = v ∧ ev.totalQty = sumQty v := by
  unfold stageB
  rw [strategyDomManipulation_eq]
  cases hb : decide (0 < (clickedItems env v 0).length)
  · obtain ⟨tail, ht, hp⟩ := stageC_events env v
      { s with domClicks := s.domClicks ++ clickedItems env v 0 }
    exact ⟨tail, ht, hp⟩
  · obtain ⟨tail, ht, hp⟩ := finish_events env v true
      { s with domClicks := s.domClicks ++ clickedItems env v 0 }
    exact ⟨tail, ht, hp⟩

/-! ## Claim theorems -/

/-- Claim C3: for every batch that is empty or contains only invalid items
(failing the LineItem invariant), `addToCartBulk` returns immediately with
no side effects: the page state is returned unchanged (no host call, no DOM
click, no navigation, no toast, no event), and the result is a normal
(non-error) return. -/
theorem c3_empty_noop (env : Env) (items : List Item) (s : PageState)
    (h : items.filter isValid = []) :
    addToCartBulk env items s = (.ok (), s) := by
  simp [addToCartBulk, h]

/-- Witness for C3 at a concrete all-invalid batch (zero quantity, missing
variantId): the initial page state comes back untouched. -/
theorem c3_empty_noop_witness :
    addToCartBulk envApiOk
      [⟨some (.str "77"), 0⟩, ⟨none, 5⟩] PageState.init = (.ok (), PageState.init) :=
  c3_empty_noop envApiOk [⟨some (.str "77"), 0⟩, ⟨none, 5⟩] PageState.init (by decide)

/-- Claim C4: if the host cart capability is absent (no `window`, or no
`NuvemshopCart.add` function), Strategy A makes no add call at all (page
state unchanged) and reports failure as a value (`.ok false`, not an error),
and the orchestrator proceeds with Strategy B (`addToCartBulk` continues
exactly as `stageB`, the Strategy-B-onward tail of the chain). -/
theorem c4_api_absent (env : Env) (items : List Item) (s : PageState)
    (h : env.windowPresent = false ∨ env.hostApiPresent = false)
    (hne : items.filter isValid ≠ []) :
    strategyNuvemshopCartApi env (items.filter isValid) s = (.ok false, s) ∧
    addToCartBulk env items s = stageB env (items.filter isValid) s := by
  have hg : (env.windowPresent && env.hostApiPresent) = false := by
    rcases h with h | h <;> simp [h]
  have hA : strategyNuvemshopCartApi env (items.filter isValid) s = (.ok false, s) := by
    unfold strategyNuvemshopCartApi
    rw [hg]
    simp
  refine ⟨hA, ?_⟩
  simp only [addToCartBulk]
  rw [if_neg (by simp [hne]), hA]

/-- Witness for C4: host API absent, one valid item; Strategy A reports
failure without touching the state and the run continues at Strategy B. -/
theorem c4_api_absent_witness :
    strategyNuvemshopCartApi envNoApi
      (([⟨some (.num 3), 1⟩] : List Item).filter isValid) PageState.init =
        (.ok false, PageState.init) ∧
    addToCartBulk envNoApi [⟨some (.num 3), 1⟩] PageState.init =
      stageB envNoApi (([⟨some (.num 3), 1⟩] : List Item).filter isValid)
        PageState.init :=
  c4_api_absent envNoApi [⟨some (.num 3), 1⟩] PageState.init
    (Or.inr (by decide)) (by decide)

/-- Claim C7: Strategy B processes the items independently and reports
success iff at least one item's iteration dispatched a click.  First
conjunct: the strategy's full result is characterized item-wise by
`clickedItems` — the success boolean is exactly `0 < number of clicked
items` (so failure is reported only when zero items succeeded), and a
throwing iteration contributes nothing but aborts nothing.  Second
conjunct: an error raised while processing the item at any loop position
behaves exactly as if that item merely found no add button — the remaining
items are processed identically. -/
theorem c7_dom_independent (env : Env) (items : List Item) (s : PageState) :
    (strategyDomManipulation env items s =
      (.ok (decide (0 < (clickedItems env items 0).length)),
       { s with domClicks := s.domClicks ++ clickedItems env items 0 })) ∧
    ∀ (p : Nat) (e : JsErr),
      strategyDomManipulation
        { env with dom := Function.update env.dom p (.throws e) } items s =
      strategyDomManipulation
        { env with dom := Function.update env.dom p .noClick } items s := by
  refine ⟨strategyDomManipulation_eq env items s, ?_⟩
  intro p e
  rw [strategyDomManipulation_eq, strategyDomManipulation_eq]
  have hcong := clickedItems_congr
    { env with dom := Function.update env.dom p (.throws e) }
    { env with dom := Function.update env.dom p .noClick }
    items 0 ?_
  · rw [hcong]
  · intro j
    by_cases hj : j = p
    · subst hj
      simp [Function.update, isClickOutcome]
    · simp [Function.update, hj]

/-- Claim C8: `addToCartBulk` never propagates an error to its caller: for
every environment (however the host add calls and DOM interactions throw)
and every input batch, the call resolves normally (`.ok`), never as an
error — internal errors are caught at the strategy boundaries. -/
theorem c8_never_throws (env : Env) (items : List Item) (s : PageState) :
    ∃ s1, addToCartBulk env items s = (.ok (), s1) := by
  simp only [addToCartBulk]
  by_cases hv : (items.filter isValid).isEmpty
  · exact ⟨s, by rw [if_pos hv]⟩
  · rw [if_neg hv]
    obtain ⟨b, s1, hA⟩ := strategyNuvemshopCartApi_ok env (items.filter isValid) s
    rw [hA]
    cases b
    · exact stageB_ok env (items.filter isValid) s1
    · exact finish_ok env (items.filter isValid) true s1

/-- Claim C1 (counterexample): at the batch
`[{variantId: 0, quantity: 2}, {variantId: 1, quantity: 1}]` — both items
pass the entry filter, so both are valid items — with no host API and no
matching DOM controls, Strategy C navigates with only ONE
`items[]=<variantId>:<quantity>` pair (not one per valid item: the
truthiness filter of `strategyRedirect` drops the variantId-0 item), and,
because `strategyRedirect` returns true, the cart-updated notification and
the toast ARE emitted on this path, contradicting the claim. -/
theorem c1_counterexample :
    (∀ i ∈ batchMixed, isValid i = true) ∧
    (addToCartBulk envNoApi batchMixed PageState.init).2.navigatedTo =
      some "/cart/add?items[]=1:1" ∧
    (addToCartBulk envNoApi batchMixed PageState.init).2.events ≠ [] ∧
    (addToCartBulk envNoApi batchMixed PageState.init).2.toasts ≠ [] := by
  refine ⟨by decide, rfl, by decide, by decide⟩

/-- Claim C1 (amended): for every batch of valid items all of whose
variantIds are truthy (non-empty string / non-zero number), if Strategy A
fails and Strategy B fails and `window` is present, then Strategy C
navigates to `/cart/add` with a query string containing exactly one
`items[]=<variantId>:<quantity>` pair per valid item, in input order — and,
since `strategyRedirect` reports success, the cart-updated notification and
the toast ARE emitted for this path (with the toast element and
`dispatchEvent` available). -/
theorem c1_redirect_amended (env : Env) (items : List Item) (s s1 s2 : PageState)
    (hW : env.windowPresent = true)
    (hT : env.toastElem = true)
    (hD : env.dispatchEventPresent = true)
    (htruthy : ∀ i ∈ items.filter isValid, truthyItem i = true)
    (hne : items.filter isValid ≠ [])
    (hA : strategyNuvemshopCartApi env (items.filter isValid) s = (.ok false, s1))
    (hB : strategyDomManipulation env (items.filter isValid) s1 = (.ok false, s2)) :
    addToCartBulk env items s =
      (.ok (), { s2 with
         navigatedTo := some ("/cart/add?" ++
           joinAmp ((items.filter isValid).map itemParam)),
         toasts := s2.toasts ++ [toastMsg (sumQty (items.filter isValid))],
         events := s2.events ++
           [{ name := "grade-atacado:cart-updated",
              items := items.filter isValid,
              totalQty := sumQty (items.filter isValid) }] }) := by
  have hfil : (items.filter isValid).filter truthyItem = items.filter isValid :=
    List.filter_eq_self.mpr htruthy
  have hparams : joinAmp ((items.filter isValid).map itemParam) ≠ "" := by
    apply joinAmp_ne_empty
    · simp [hne]
    · intro x hx
      obtain ⟨i, _, rfl⟩ := List.mem_map.mp hx
      exact itemParam_ne_empty i
  simp only [addToCartBulk]
  rw [if_neg (by simp [hne]), hA]
  show stageB env (items.filter isValid) s1 = _
  unfold stageB
  rw [hB]
  show stageC env (items.filter isValid) s2 = _
  unfold stageC strategyRedirect
  rw [hW]
  simp only [if_true, hfil]
  rw [if_neg hparams]
  show finish env (items.filter isValid) true _ = _
  unfold finish completion showToast
  simp [hW, hT, hD]

/-- Witness for the amended C1: one truthy valid item, no host API, no DOM
controls — the run navigates to `/cart/add?items[]=2:3` and emits both the
toast and the notification. -/
theorem c1_redirect_amended_witness :
    addToCartBulk envNoApi [⟨some (.num 2), 3⟩] PageState.init =
      (.ok (), { PageState.init with
         navigatedTo := some "/cart/add?items[]=2:3",
         toasts := ["3 produto(s) adicionado(s) ao carrinho!"],
         events := [{ name := "grade-atacado:cart-updated",
                      items := [⟨some (.num 2), 3⟩], totalQty := 3 }] }) := by
  have h := c1_redirect_amended envNoApi [⟨some (.num 2), 3⟩]
    PageState.init PageState.init PageState.init
    rfl rfl rfl (by decide) (by decide) rfl rfl
  simpa using h

/-- Claim C9 (counterexample): at the batch `[{variantId: 5, quantity: 2}]`
with the host API present and resolving, exactly one host add call is made,
but its argument is `{variant_id: "5", quantity: 2}` — the variantId is
coerced with JS `String(...)` — not `{variant_id: 5, quantity: 2}` as the
claim states. -/
theorem c9_counterexample :
    (addToCartBulk envApiOk [⟨some (.num 5), 2⟩] PageState.init).2.hostCalls =
      [{ variant_id := .str "5", quantity := 2 }] ∧
    (addToCartBulk envApiOk [⟨some (.num 5), 2⟩] PageState.init).2.hostCalls ≠
      [{ variant_id := .num 5, quantity := 2 }] := by
  refine ⟨rfl, by decide⟩

/-- Claim C9 (amended): for the batch `[{variantId: 5, quantity: 2}]` with
the host API present and its add call resolving, exactly one call is made
to the host add capability with the argument
`{variant_id: "5" (the string form of the variantId), quantity: 2}`, the
notification is dispatched with `totalQty = 2`, and the toast text is
`"2 produto(s) adicionado(s) ao carrinho!"`. -/
theorem c9_stringified_scenario :
    addToCartBulk envApiOk [⟨some (.num 5), 2⟩] PageState.init =
      (.ok (), { PageState.init with
         hostCalls := [{ variant_id := .str "5", quantity := 2 }],
         toasts := ["2 produto(s) adicionado(s) ao carrinho!"],
         events := [{ name := "grade-atacado:cart-updated",
                      items := [⟨some (.num 5), 2⟩], totalQty := 2 }] }) := by
  rfl

/-- Claim C10: the entry filter rejects only `undefined`/`null` variantIds
(and non-positive quantities); an item whose variantId is `""` or `0` is
retained as valid (and hence counted in `totalQuantity` and carried by the
notification), yet every strategy's per-item guard skips it: Strategy A's
loop makes no call for it, Strategy B's loop never clicks for it, and
Strategy C's filter drops it (so `strategyRedirect` even reports failure on
such a singleton).  Concretely, with the host API present, the batch
`[{variantId: 0, quantity: 2}]` reports success and dispatches the
notification with `totalQty = 2` without any host add call being made. -/
theorem c10_falsy_variant :
    (∀ q : Int, 0 < q →
       isValid ⟨some (.str ""), q⟩ = true ∧
       isValid ⟨some (.num 0), q⟩ = true ∧
       truthyItem ⟨some (.str ""), q⟩ = false ∧
       truthyItem ⟨some (.num 0), q⟩ = false) ∧
    (∀ (env : Env) (s : PageState) (q : Int) (k : VKey),
       (k = .str "" ∨ k = .num 0) → 0 < q →
       apiLoop env [⟨some k, q⟩] s = (.ok (), s) ∧
       domLoop env [⟨some k, q⟩] 0 0 s = (0, s) ∧
       strategyRedirect env [⟨some k, q⟩] s = (.ok false, s)) ∧
    addToCartBulk envApiOk [⟨some (.num 0), 2⟩] PageState.init =
      (.ok (), { PageState.init with
         toasts := ["2 produto(s) adicionado(s) ao carrinho!"],
         events := [{ name := "grade-atacado:cart-updated",
                      items := [⟨some (.num 0), 2⟩], totalQty := 2 }] }) := by
  refine ⟨?_, ?_, rfl⟩
  · intro q hq
    refine ⟨?_, ?_, ?_, ?_⟩ <;> simp [isValid, truthyItem, truthyV, hq]
  · intro env s q k hk hq
    have htr : truthyItem ⟨some k, q⟩ = false := by
      rcases hk with rfl | rfl <;> simp [truthyItem, truthyV]
    refine ⟨?_, ?_, ?_⟩
    · simp [apiLoop, htr]
    · simp [domLoop, htr]
    · cases hw : env.windowPresent <;>
        simp [strategyRedirect, htr, joinAmp, hw, List.filter_cons]

/-- Witness for C10 at `q = 2`, `variantId = 0`: the item is valid for the
entry filter, falsy for the per-item guards, and Strategy A's loop makes no
call for it. -/
theorem c10_falsy_variant_witness :
    isValid ⟨some (.num 0), (2 : Int)⟩ = true ∧
    truthyItem ⟨some (.num 0), (2 : Int)⟩ = false ∧
    apiLoop envNoApi [⟨some (.num 0), 2⟩] PageState.init =
      (.ok (), PageState.init) := by
  refine ⟨(c10_falsy_variant.1 2 (by decide)).2.1,
          (c10_falsy_variant.1 2 (by decide)).2.2.2,
          (c10_falsy_variant.2.1 envNoApi PageState.init 2 (.num 0)
            (Or.inr rfl) (by decide)).1⟩

/-- Claim C2: items with non-positive quantity or missing variantId are
excluded from `ValidItems` (first conjunct); `ValidItems` preserves the
relative order of the surviving items (it is a sublist of the input);
`addToCartBulk` behaves exactly as if called on the pre-filtered batch
(every strategy receives only `ValidItems`); and any notification the run
appends carries exactly `ValidItems` with `totalQty` summed over
`ValidItems` only — so excluded items contribute nothing to the reported
total. -/
theorem c2_entry_filter (env : Env) (items : List Item) (s : PageState) :
    (∀ i ∈ items, (i.quantity ≤ 0 ∨ i.variantId = none) →
       i ∉ items.filter isValid) ∧
    (items.filter isValid).Sublist items ∧
    addToCartBulk env items s = addToCartBulk env (items.filter isValid) s ∧
    ∃ tail, (addToCartBulk env items s).2.events = s.events ++ tail ∧
      ∀ ev ∈ tail, ev.items = items.filter isValid ∧
        ev.totalQty = sumQty (items.filter isValid) := by
  refine ⟨?_, List.filter_sublist items, ?_, ?_⟩
  · intro i hi hbad hmem
    have hval := (List.mem_filter.mp hmem).2
    rcases hbad with hq | hv
    · simp only [isValid, Bool.and_eq_true, decide_eq_true_eq] at hval
      omega
    · simp [isValid, hv] at hval
  · simp only [addToCartBulk, List.filter_filter, Bool.and_self]
  · by_cases hv : (items.filter isValid).isEmpty
    · refine ⟨[], ?_, by simp⟩
      simp only [addToCartBulk]
      rw [if_pos hv]
      simp
    · simp only [addToCartBulk]
      rw [if_neg hv]
      obtain ⟨b, cs, hA⟩ :=
        strategyNuvemshopCartApi_frame env (items.filter isValid) s
      rw [hA]
      cases b
      · obtain ⟨tail, ht, hp⟩ := stageB_events env (items.filter isValid)
          { s with hostCalls := s.hostCalls ++ cs }
        exact ⟨tail, ht, hp⟩
      · obtain ⟨tail, ht, hp⟩ := finish_events env (items.filter isValid) true
          { s with hostCalls := s.hostCalls ++ cs }
        exact ⟨tail, ht, hp⟩

/-- Witness for C2: a zero-quantity item is not in the filtered batch. -/
theorem c2_entry_filter_witness :
    (⟨some (.num 7), 0⟩ : Item) ∉
      ([⟨some (.num 7), 0⟩, ⟨some (.num 3), 2⟩] : List Item).filter isValid :=
  (c2_entry_filter envNoApi [⟨some (.num 7), 0⟩, ⟨some (.num 3), 2⟩]
      PageState.init).1
    ⟨some (.num 7), 0⟩ (by decide) (Or.inl (by decide))

/-- Claim C5: with the host API present, if the add call for the item at
(0-based) position `k` of a batch of truthy valid items rejects while the
calls before it resolve, Strategy A aborts its loop — the host calls made
are exactly those for the first `k + 1` items, none after — and reports
failure for the whole batch as a value (`.ok false`; the earlier calls stay
recorded, i.e. not rolled back), and the orchestrator proceeds with
Strategy B from that state. -/
theorem c5_api_throw_aborts (env : Env) (items : List Item) (s : PageState)
    (k : Nat) (e : JsErr)
    (hW : env.windowPresent = true) (hApi : env.hostApiPresent = true)
    (hall : ∀ i ∈ items, truthyItem i = true)
    (hk : k < items.length)
    (hok : ∀ j, j < k → env.hostAdd (s.hostCalls.length + j) = .ok ())
    (herr : env.hostAdd (s.hostCalls.length + k) = .error e) :
    strategyNuvemshopCartApi env items s =
      (.ok false,
       { s with hostCalls := s.hostCalls ++ (items.take (k + 1)).map hostArg }) ∧
    addToCartBulk env items s =
      stageB env items
        { s with hostCalls := s.hostCalls ++ (items.take (k + 1)).map hostArg } := by
  have hA : strategyNuvemshopCartApi env items s =
      (.ok false,
       { s with hostCalls := s.hostCalls ++ (items.take (k + 1)).map hostArg }) := by
    unfold strategyNuvemshopCartApi
    rw [hW, hApi]
    simp only [Bool.and_self, if_true]
    rw [apiLoop_error env items s k e hall hk hok herr]
  refine ⟨hA, ?_⟩
  have hfil : items.filter isValid = items :=
    List.filter_eq_self.mpr (fun i hi => truthyItem_isValid (hall i hi))
  have hne : items ≠ [] := by
    intro h
    subst h
    simp at hk
  simp only [addToCartBulk, hfil]
  rw [if_neg (by simp [hne]), hA]

/-- Witness for C5: batch of three truthy items, the second add call
rejects; Strategy A records exactly the first two calls and fails, and the
run continues at Strategy B. -/
theorem c5_api_throw_aborts_witness :
    strategyNuvemshopCartApi envApiErr
      [⟨some (.num 1), 1⟩, ⟨some (.num 2), 1⟩, ⟨some (.num 3), 1⟩]
      PageState.init =
      (.ok false, { PageState.init with
        hostCalls := [⟨.str "1", 1⟩, ⟨.str "2", 1⟩] }) ∧
    addToCartBulk envApiErr
      [⟨some (.num 1), 1⟩, ⟨some (.num 2), 1⟩, ⟨some (.num 3), 1⟩]
      PageState.init =
      stageB envApiErr
        [⟨some (.num 1), 1⟩, ⟨some (.num 2), 1⟩, ⟨some (.num 3), 1⟩]
        { PageState.init with hostCalls := [⟨.str "1", 1⟩, ⟨.str "2", 1⟩] } := by
  have h := c5_api_throw_aborts envApiErr
    [⟨some (.num 1), 1⟩, ⟨some (.num 2), 1⟩, ⟨some (.num 3), 1⟩]
    PageState.init 1 "boom" rfl rfl (by decide) (by decide)
    (fun j hj => by
      have hj0 : j = 0 := by omega
      subst hj0
      rfl) rfl
  simpa using h

/-- Claim C6: with the host API present and every add call resolving (and
the toast element and dispatchEvent available), `addToCartBulk` completes
through Strategy A alone: the final state differs from the input state only
by Strategy A's host calls, one toast of the form
`"<totalQuantity> produto(s) adicionado(s) ao carrinho!"`, and exactly one
`grade-atacado:cart-updated` event carrying all valid items and
`totalQty = sum of their quantities` — in particular `domClicks` and
`navigatedTo` are untouched, so Strategy B and Strategy C never ran. -/
theorem c6_api_success (env : Env) (items : List Item) (s : PageState)
    (hW : env.windowPresent = true) (hApi : env.hostApiPresent = true)
    (hT : env.toastElem = true) (hD : env.dispatchEventPresent = true)
    (hok : ∀ j, env.hostAdd j = .ok ())
    (hne : items.filter isValid ≠ []) :
    addToCartBulk env items s =
      (.ok (), { s with
         hostCalls := s.hostCalls ++
           (((items.filter isValid).filter truthyItem).map hostArg),
         toasts := s.toasts ++ [toastMsg (sumQty (items.filter isValid))],
         events := s.events ++
           [{ name := "grade-atacado:cart-updated",
              items := items.filter isValid,
              totalQty := sumQty (items.filter isValid) }] }) := by
  have hA : strategyNuvemshopCartApi env (items.filter isValid) s =
      (.ok true, { s with hostCalls := s.hostCalls ++
        (((items.filter isValid).filter truthyItem).map hostArg) }) := by
    unfold strategyNuvemshopCartApi
    rw [hW, hApi]
    simp only [Bool.and_self, if_true]
    rw [apiLoop_all_ok env (items.filter isValid) s hok]
  simp only [addToCartBulk]
  rw [if_neg (by simp [hne]), hA]
  show finish env (items.filter isValid) true _ = _
  unfold finish completion showToast
  simp [hW, hT, hD]

/-- Witness for C6: one valid item, API present and resolving; exactly one
host call, one toast, one event, no click and no navigation. -/
theorem c6_api_success_witness :
    addToCartBulk envApiOk [⟨some (.str "9"), 4⟩] PageState.init =
      (.ok (), { PageState.init with
         hostCalls := [⟨.str "9", 4⟩],
         toasts := ["4 produto(s) adicionado(s) ao carrinho!"],
         events := [{ name := "grade-atacado:cart-updated",
                      items := [⟨some (.str "9"), 4⟩], totalQty := 4 }] }) := by
  have h := c6_api_success envApiOk [⟨some (.str "9"), 4⟩] PageState.init
    rfl rfl rfl rfl (fun j => rfl) (by decide)
  simpa using h

end CartInjector
